import Mathlib

/-!
Verification of the docstats source-normalization and metrics-aggregation
pipeline (`models.py`, `metrics.py`, `extraction.py`) against its
specification.  Python strings are modelled by Lean `String` (a list of
code points, matching Python's semantics); Python string primitives are
embedded as structural functions on the underlying character list so that
every definition is executable by the kernel.  Fallible Python code
(functions that raise `ValueError`) is modelled with `Except String`,
the error string carrying the exception message.  The external
collaborators (HTTP client, PDF parser, HTML parser, storage client,
readability-scoring library) are black boxes, modelled as environments
supplied to the pipeline; attempted network/storage operations are
recorded in an explicit event trace.
-/

namespace Docstats

/-! ### Python string primitives, embedded on the character list -/

/-- Python truthiness of an `Optional[str]` value: `None` and the empty
string are falsy, every other string is truthy (`values.get(s)` used as a
condition in `models.py`). -/
def pyTruthy : Option String → Bool
  | none => false
  | some s => s != ""

/-- Python `str.strip()` on the character list: drop whitespace from both
ends (ASCII whitespace; the code never strips exotic Unicode spaces in the
cases the claims exercise). -/
def listStrip (l : List Char) : List Char :=
  ((l.dropWhile Char.isWhitespace).reverse.dropWhile Char.isWhitespace).reverse

/-- Python `str.strip()`. -/
def pyStrip (s : String) : String :=
  String.mk (listStrip s.data)

/-- Python `str.lower()` (ASCII case folding suffices for the inspected
values: content types and URL extensions). -/
def pyLower (s : String) : String :=
  String.mk (s.data.map Char.toLower)

/-- Python `str.startswith(p)`: the characters of `p` are a prefix of the
characters of `s`. -/
def pyStartsWith (s p : String) : Bool :=
  p.data.isPrefixOf s.data

/-- Python `str.endswith(p)`: the characters of `p` are a suffix of the
characters of `s`. -/
def pyEndsWith (s p : String) : Bool :=
  p.data.isSuffixOf s.data

/-- Occurrence test on character lists, used for Python's `in` operator on
strings. -/
def containsSub : List Char → List Char → Bool
  | [], pat => pat.isPrefixOf []
  | c :: rest, pat => pat.isPrefixOf (c :: rest) || containsSub rest pat

/-- Python `pat in s` for strings. -/
def pyContains (s pat : String) : Bool :=
  containsSub s.data pat.data

/-- Python `str.replace(pat, rep)` on character lists for a non-empty
pattern: every (leftmost, non-overlapping) occurrence of `pat` is replaced
by `rep`; scanning resumes after the inserted replacement.  The first
argument is recursion fuel — each step consumes at least one character, so
any fuel at least the input length computes the full replacement.  (For
the empty pattern, which the code never passes, this returns the input
unchanged.) -/
def pyReplaceFuel (pat rep : List Char) : Nat → List Char → List Char
  | _, [] => []
  | 0, l => l
  | fuel + 1, c :: rest =>
    if pat ≠ [] ∧ pat.isPrefixOf (c :: rest) then
      rep ++ pyReplaceFuel pat rep fuel ((c :: rest).drop pat.length)
    else
      c :: pyReplaceFuel pat rep fuel rest

/-- Python `s.replace(pat, rep)`. -/
def pyReplace (s pat rep : String) : String :=
  String.mk (pyReplaceFuel pat.data rep.data s.data.length s.data)

/-- Python `s.split("/", 1)` restricted to what the code consumes: returns
the parts before and after the first `'/'` when one exists, `none`
otherwise (in which case Python returns the one-element list `[s]` and
unpacking into two variables raises `ValueError`). -/
def splitFirstSlash : List Char → Option (List Char × List Char)
  | [] => none
  | c :: rest =>
    if c = '/' then some ([], rest)
    else
      match splitFirstSlash rest with
      | some (a, b) => some (c :: a, b)
      | none => none

/-- Python `" ".join(parts)`. -/
def joinWithSpace : List String → String
  | [] => ""
  | [s] => s
  | s :: rest => s ++ " " ++ joinWithSpace rest

/-! ### `models.py` -/

/-- Model for text source input (`models.py`): each field is an
`Optional[str]` taken from the request payload. -/
structure TextSourceModel where
  text : Option String
  web_url : Option String
  gcs_pdf_uri : Option String
deriving Repr, DecidableEq

/-- The `mode="before"` model validator `check_exclusive_source`
(`models.py` lines 30-46): exactly one of the three fields must be truthy,
and a truthy `gcs_pdf_uri` must start with `"gs://"`. -/
def check_exclusive_source (values : TextSourceModel) : Except String TextSourceModel :=
  if ([values.text, values.web_url, values.gcs_pdf_uri].filter pyTruthy).length ≠ 1 then
    Except.error "Exactly one of text, web_url, or gcs_pdf_uri must be provided."
  else if pyTruthy values.gcs_pdf_uri &&
      !pyStartsWith (values.gcs_pdf_uri.getD "") "gs://" then
    Except.error "gcs_pdf_uri must be a valid gs:// URI."
  else
    Except.ok values

/-- The pydantic field-level validation that runs after the before-mode
model validator: `text` is declared `Field(None, min_length=1)`
(`models.py` line 26), so a present empty-string `text` fails with a
minimum-length violation even when the exclusive-source check passed. -/
def validate_fields (values : TextSourceModel) : Except String TextSourceModel :=
  match values.text with
  | some t => if t.length < 1 then
      Except.error "String should have at least 1 character"
    else Except.ok values
  | none => Except.ok values

/-- Full validation of a `TextSourceModel` payload: the before-mode model
validator, then pydantic's field constraints. -/
def validate_TextSourceModel (values : TextSourceModel) : Except String TextSourceModel :=
  match check_exclusive_source values with
  | Except.error e => Except.error e
  | Except.ok v => validate_fields v

/-- Model for the comprehensive set of readability scores and text
statistics (`models.py`). -/
structure ReadabilityScoresModel where
  flesch_reading_ease : Option Float
  flesch_kincaid_grade : Option Float
  gunning_fog : Option Float
  smog_index : Option Float
  automated_readability_index : Option Float
  coleman_liau_index : Option Float
  linsear_write_formula : Option Float
  dale_chall_readability_score : Option Float
  text_standard : Option String
  spache : Option Float
  syllable_count : Nat
  word_count : Nat
  sentence_count : Nat

/-! ### `metrics.py` -/

/-- Black-box interface of the scoring libraries used by `metrics.py`:
`textstat` functions are total (the spec treats them as unconditionally
available once the word count is positive), while
`Readability(text).spache().score` may raise, modelled by
`Except String Float` whose error carries the exception message. -/
structure TextstatLib where
  lexicon_count : String → Nat
  syllable_count : String → Nat
  sentence_count : String → Nat
  flesch_reading_ease : String → Float
  flesch_kincaid_grade : String → Float
  gunning_fog : String → Float
  smog_index : String → Float
  automated_readability_index : String → Float
  coleman_liau_index : String → Float
  linsear_write_formula : String → Float
  dale_chall_readability_score : String → Float
  text_standard : String → Float
  spache : String → Except String Float

/-- `calculate_readability_metrics_logic` (`metrics.py` lines 24-68):
reject empty trimmed text, reject zero lexicon count, otherwise build the
full score bundle; a raising Spache computation is swallowed (both the
expected "100 words" case and the unexpected case only log) and leaves the
`spache` field `None`. -/
def calculate_readability_metrics_logic (lib : TextstatLib) (text src_desc : String) :
    Except String ReadabilityScoresModel :=
  if pyStrip text = "" then
    Except.error "Empty text."
  else
    let wc := lib.lexicon_count text
    if wc = 0 then
      Except.error "Zero words."
    else
      let spache_score : Option Float :=
        if wc > 0 then
          match lib.spache text with
          | Except.ok s => some s
          | Except.error _ => none
        else none
      Except.ok {
        syllable_count := lib.syllable_count text
        word_count := wc
        sentence_count := lib.sentence_count text
        flesch_reading_ease := some (lib.flesch_reading_ease text)
        flesch_kincaid_grade := some (lib.flesch_kincaid_grade text)
        gunning_fog := some (lib.gunning_fog text)
        smog_index := some (lib.smog_index text)
        automated_readability_index := some (lib.automated_readability_index text)
        coleman_liau_index := some (lib.coleman_liau_index text)
        linsear_write_formula := some (lib.linsear_write_formula text)
        dale_chall_readability_score := some (lib.dale_chall_readability_score text)
        text_standard := some (toString (lib.text_standard text))
        spache := spache_score }

/-! ### `extraction.py` -/

/-- Network/storage operation attempted by the Source Resolver, recorded in
an explicit trace so that "rejected before any I/O" is a statement about
the trace. -/
inductive IOEvent where
  | webFetch (url : String)
  | gcsDownload (bucket blob : String)
deriving Repr, DecidableEq

/-- One page of a parsed PDF document: `extract_text` is `none` when the
page yields no extractable text (Python `None`), else the extracted
string. -/
structure PdfPage where
  extract_text : Option String
deriving Repr, DecidableEq

/-- A parsed PDF document (`pypdf.PdfReader`): its ordered list of
pages. -/
structure PdfDoc where
  pages : List PdfPage
deriving Repr, DecidableEq

/-- The page-concatenation step shared by both PDF branches:
`"".join(page.extract_text() or "" for page in reader.pages)` — a page
with no extractable text contributes the empty string. -/
def pdf_join_pages (doc : PdfDoc) : String :=
  String.join (doc.pages.map (fun p => p.extract_text.getD ""))

/-- A parsed HTML element (bs4 `Tag`): its descendant text nodes in
document order. -/
structure Tag where
  strings : List String
deriving Repr, DecidableEq

/-- Python truthiness of a bs4 `find` result: `None` is falsy, and every
`Tag` is truthy — bs4 `Tag.__bool__` returns `True` unconditionally, even
for a tag with no contents. -/
def tagTruthy : Option Tag → Bool
  | none => false
  | some _ => true

/-- Python `a or b` specialised to optional tags: `a` if truthy, else
`b`. -/
def pyOrTag (a b : Option Tag) : Option Tag :=
  if tagTruthy a then a else b

/-- bs4 `tag.get_text(separator=" ", strip=True)`: each descendant text
node is stripped, empty results are skipped, and the rest are joined with
one space. -/
def get_text_space_strip (t : Tag) : String :=
  joinWithSpace ((t.strings.map pyStrip).filter (fun s => s != ""))

/-- The three elements the HTML branch inspects: the first `<article>`,
the first `<main>`, and the document `<body>` of the parsed page (each
`none` when no such element exists). -/
structure HtmlDoc where
  article : Option Tag
  mainElem : Option Tag
  body : Option Tag
deriving Repr, DecidableEq

/-- A successful HTTP response as the web branch consumes it: the declared
`Content-Type` header (empty string when absent), the result of parsing
the body bytes as a PDF, and the result of parsing them as HTML
(BeautifulSoup never raises on arbitrary bytes). -/
structure HttpResponse where
  content_type : String
  pdf_parse : Except String PdfDoc
  html_parse : HtmlDoc

/-- The HTTP-fetch collaborator: `GET url` either fails (transport error
or `raise_for_status` on a non-success status), carrying the exception
message, or yields a response. -/
structure WebEnv where
  fetch : String → Except String HttpResponse

/-- The storage collaborator: given bucket and object path, the composite
of `blob.download_as_bytes()` and `pypdf.PdfReader` either raises (any
network/auth/missing-object/parse failure, carrying the exception message)
or yields a parsed PDF. -/
structure GcsEnv where
  fetch_pdf : String → String → Except String PdfDoc

/-- The PDF-detection test of the web branch (`extraction.py` line 109):
`"application/pdf" in content_type.lower() or url.lower().endswith(".pdf")`. -/
def is_pdf_response (url : String) (resp : HttpResponse) : Bool :=
  pyContains (pyLower resp.content_type) "application/pdf" ||
    pyEndsWith (pyLower url) ".pdf"

/-- The bucket/object split of `extract_text_from_gcs_pdf`
(`extraction.py` line 51):
`gcs_uri.replace("gs://", "").split("/", 1)` unpacked into two names —
note that `replace` removes every occurrence of `"gs://"`, not only the
leading prefix; `none` models the `ValueError` Python raises when the
stripped URI has no `'/'` to split on. -/
def gcs_split_uri (gcs_uri : String) : Option (String × String) :=
  match splitFirstSlash (pyReplace gcs_uri "gs://" "").data with
  | some (b, r) => some (String.mk b, String.mk r)
  | none => none

/-- The body of the `try` block of `extract_text_from_gcs_pdf`
(`extraction.py` lines 47-67): split the URI — raising the unpack
`ValueError` when there is no `'/'` to split on — download and parse the
object, concatenate page text, and reject when the trimmed result is
empty.  The second component records the storage reads attempted. -/
def extract_gcs_inner (gcs : GcsEnv) (gcs_uri : String) :
    Except String String × List IOEvent :=
  match gcs_split_uri gcs_uri with
  | none =>
    (Except.error "not enough values to unpack (expected 2, got 1)", [])
  | some (bucket_name, blob_name) =>
    match gcs.fetch_pdf bucket_name blob_name with
    | Except.error e =>
      (Except.error e, [IOEvent.gcsDownload bucket_name blob_name])
    | Except.ok reader =>
      let text := pdf_join_pages reader
      if pyStrip text = "" then
        (Except.error "No text in PDF.", [IOEvent.gcsDownload bucket_name blob_name])
      else
        (Except.ok text, [IOEvent.gcsDownload bucket_name blob_name])

/-- The `except` clause of `extract_text_from_gcs_pdf` (`extraction.py`
lines 69-71): any exception raised by the `try` body is re-raised as one
`ValueError` whose message embeds the URI behind the prefix
`"GCS PDF error"`; a normal result passes through. -/
def wrap_gcs (gcs_uri : String) :
    Except String String × List IOEvent → Except String String × List IOEvent
  | (Except.error e, evs) =>
    (Except.error ("GCS PDF error (" ++ gcs_uri ++ "): " ++ e), evs)
  | (Except.ok text, evs) => (Except.ok text, evs)

/-- `extract_text_from_gcs_pdf` (`extraction.py` lines 45-71): run the
`try` body under the wrapping `except` clause. -/
def extract_text_from_gcs_pdf (gcs : GcsEnv) (gcs_uri : String) :
    Except String String × List IOEvent :=
  wrap_gcs gcs_uri (extract_gcs_inner gcs gcs_uri)

/-- The HTML text extraction of the web branch (`extraction.py` lines
131-139): `article = soup.find("article") or soup.find("main")`,
`target = article or soup.body`,
`text = target.get_text(separator=" ", strip=True) if target else ""` —
Python's `or` and the trailing conditional test each operand's
truthiness. -/
def html_branch_text (doc : HtmlDoc) : String :=
  match pyOrTag (pyOrTag doc.article doc.mainElem) doc.body with
  | some t => get_text_space_strip t
  | none => ""

/-- The body of the web branch's `try` block (`extraction.py` lines
87-147) after a successful fetch: PDF detection, then either page
concatenation or the `<article>`/`<main>`/`<body>` HTML extraction, with
the two empty-result `ValueError`s. -/
def resolve_web_inner (url : String) (resp : HttpResponse) :
    Except String (String × String) :=
  if is_pdf_response url resp then
    match resp.pdf_parse with
    | Except.error e => Except.error e
    | Except.ok reader =>
      if pyStrip (pdf_join_pages reader) = "" then Except.error "No text in web PDF."
      else Except.ok (pdf_join_pages reader, "Web PDF: " ++ url)
  else
    if pyStrip (html_branch_text resp.html_parse) = "" then
      Except.error "No text from URL."
    else Except.ok (html_branch_text resp.html_parse, "URL: " ++ url)

/-- The full `try` body of the web branch: the fetch (a transport error or
non-success status raises), then the branch body on the response. -/
def web_try_body (web : WebEnv) (url : String) : Except String (String × String) :=
  match web.fetch url with
  | Except.error e => Except.error e
  | Except.ok resp => resolve_web_inner url resp

/-- The `except` clause of the web branch (`extraction.py` lines 149-151):
any exception — transport failure, non-success status, or an inner
`ValueError` — is re-raised as one `ValueError` whose message embeds the
URL behind the prefix `"Web URL error"`. -/
def wrap_web (url : String) :
    Except String (String × String) → Except String (String × String) × List IOEvent
  | Except.error e =>
    (Except.error ("Web URL error (" ++ url ++ "): " ++ e), [IOEvent.webFetch url])
  | Except.ok x => (Except.ok x, [IOEvent.webFetch url])

/-- The web branch of `get_processed_text`: the fetch is always attempted
(recorded in the trace), and the `try` body runs under the wrapping
`except` clause. -/
def resolve_web (web : WebEnv) (url : String) :
    Except String (String × String) × List IOEvent :=
  wrap_web url (web_try_body web url)

/-- `get_processed_text` (`extraction.py` lines 77-163): dispatch on the
first truthy field — direct text passes through with provenance
`"direct text"`, a web URL goes through the web branch, a storage URI
through the GCS branch with provenance `"GCS: <uri>"` — and raise
`"Invalid source."` when no field is truthy. -/
def get_processed_text (web : WebEnv) (gcs : GcsEnv) (source : TextSourceModel) :
    Except String (String × String) × List IOEvent :=
  if pyTruthy source.text then
    (Except.ok (source.text.getD "", "direct text"), [])
  else if pyTruthy source.web_url then
    resolve_web web (source.web_url.getD "")
  else if pyTruthy source.gcs_pdf_uri then
    let uri := source.gcs_pdf_uri.getD ""
    match extract_text_from_gcs_pdf gcs uri with
    | (Except.error e, evs) => (Except.error e, evs)
    | (Except.ok text, evs) => (Except.ok (text, "GCS: " ++ uri), evs)
  else
    (Except.error "Invalid source.", [])

/-- The full per-request pipeline as the adapters drive it
(`fastapi_app.py`, `mcp_server.py`): validate the payload into a
`TextSourceModel`, resolve it to text and provenance, then score; the
first failing stage aborts the request with its error message. -/
def run_pipeline (web : WebEnv) (gcs : GcsEnv) (lib : TextstatLib)
    (raw : TextSourceModel) : Except String ReadabilityScoresModel × List IOEvent :=
  match validate_TextSourceModel raw with
  | Except.error e => (Except.error e, [])
  | Except.ok source =>
    match get_processed_text web gcs source with
    | (Except.error e, evs) => (Except.error e, evs)
    | (Except.ok (text, desc), evs) =>
      (calculate_readability_metrics_logic lib text desc, evs)

/-! ### Spec-side predicates (for refinement comparison) -/

/-- The acceptance condition exactly as the specification words it:
"exactly one of the three fields is populated with a non-empty string and,
when `gcs_pdf_uri` is populated, it starts with the prefix `gs://`". -/
def spec_accepts (values : TextSourceModel) : Bool :=
  ([values.text, values.web_url, values.gcs_pdf_uri].countP pyTruthy == 1) &&
    (!pyTruthy values.gcs_pdf_uri ||
      pyStartsWith (values.gcs_pdf_uri.getD "") "gs://")

/-- The element the HTML branch extracts from, as the specification words
it: the first `<article>` element if one exists, else the first `<main>`
element, else the document `<body>`. -/
def first_present_tag (doc : HtmlDoc) : Option Tag :=
  if doc.article.isSome then doc.article
  else if doc.mainElem.isSome then doc.mainElem
  else doc.body

/-! ### Concrete environments and inputs used by witnesses and
counterexamples -/

/-- A concrete scoring-library stub whose Spache computation succeeds. -/
def libFixture : TextstatLib where
  lexicon_count := fun s => s.data.length
  syllable_count := fun s => s.data.length
  sentence_count := fun _ => 1
  flesch_reading_ease := fun _ => 90.0
  flesch_kincaid_grade := fun _ => 2.0
  gunning_fog := fun _ => 4.0
  smog_index := fun _ => 3.0
  automated_readability_index := fun _ => 2.5
  coleman_liau_index := fun _ => 2.1
  linsear_write_formula := fun _ => 1.5
  dale_chall_readability_score := fun _ => 5.0
  text_standard := fun _ => 2.0
  spache := fun _ => Except.ok 3.5

/-- A scoring-library stub whose Spache computation raises the documented
minimum-length failure. -/
def libErrFixture : TextstatLib :=
  { libFixture with spache := fun _ => Except.error "100 words required." }

/-- A scoring-library stub whose lexicon counter returns zero. -/
def libZeroFixture : TextstatLib :=
  { libFixture with lexicon_count := fun _ => 0 }

/-- A web collaborator whose fetch always fails with a transport error. -/
def webEnvFixture : WebEnv where
  fetch := fun _ => Except.error "connection refused"

/-- A storage collaborator whose download always fails. -/
def gcsEnvFixture : GcsEnv where
  fetch_pdf := fun _ _ => Except.error "404 blob not found"

/-- A two-page PDF in which every page yields an empty extracted string:
one page extracts to `None`, the other to `""`. -/
def emptyPagesDoc : PdfDoc where
  pages := [{ extract_text := none }, { extract_text := some "" }]

/-- A web collaborator serving `emptyPagesDoc` with a PDF content type. -/
def webEnvPdfEmpty : WebEnv where
  fetch := fun _ => Except.ok {
    content_type := "application/pdf"
    pdf_parse := Except.ok emptyPagesDoc
    html_parse := { article := none, mainElem := none, body := none } }

/-- A storage collaborator serving `emptyPagesDoc` for every object. -/
def gcsEnvPdfEmpty : GcsEnv where
  fetch_pdf := fun _ _ => Except.ok emptyPagesDoc

/-- An HTML page with an `<article>` element that exists but contains no
text nodes, a `<main>` element with text, and a `<body>`. -/
def emptyArticleDoc : HtmlDoc where
  article := some { strings := [] }
  mainElem := some { strings := ["Main content here"] }
  body := some { strings := ["Main content here"] }

/-- A web collaborator serving `emptyArticleDoc` as HTML. -/
def webEnvEmptyArticle : WebEnv where
  fetch := fun _ => Except.ok {
    content_type := "text/html"
    pdf_parse := Except.error "EOF marker not found"
    html_parse := emptyArticleDoc }

/-- A web collaborator serving a page whose only contentful element is the
body. -/
def webEnvBodyOnly : WebEnv where
  fetch := fun _ => Except.ok {
    content_type := "text/html"
    pdf_parse := Except.error "EOF marker not found"
    html_parse := { article := none, mainElem := none,
                    body := some { strings := ["Some", " body ", "text"] } } }

/-- The C1 counterexample payload: `text` present as the empty string,
`web_url` the single non-empty field. -/
def emptyTextPayload : TextSourceModel where
  text := some ""
  web_url := some "http://example.com"
  gcs_pdf_uri := none

/-! ### Helper lemmas -/

/-- A non-empty pattern that does not occur in `l` leaves `l` unchanged
under replacement, for any fuel. -/
lemma pyReplaceFuel_of_not_infix (pat rep : List Char) (hpat : pat ≠ []) :
    ∀ (fuel : Nat) (l : List Char), ¬ (pat <:+: l) →
      pyReplaceFuel pat rep fuel l = l := by
  intro fuel
  induction fuel with
  | zero => intro l _; cases l <;> rfl
  | succ n ih =>
    intro l hocc
    cases l with
    | nil => rfl
    | cons c rest =>
      have hnp : ¬ (pat ≠ [] ∧ pat.isPrefixOf (c :: rest)) := by
        rintro ⟨-, hpre⟩
        exact hocc (List.isPrefixOf_iff_prefix.mp hpre).isInfix
      rw [pyReplaceFuel, if_neg hnp]
      have : ¬ (pat <:+: rest) := fun hr => hocc (List.infix_cons hr)
      rw [ih rest this]

/-- Replacement consumes a leading occurrence of the pattern in one
step. -/
lemma pyReplaceFuel_prefix (pat rep : List Char) (hpat : pat ≠ [])
    (fuel : Nat) (r : List Char) :
    pyReplaceFuel pat rep (fuel + 1) (pat ++ r) = rep ++ pyReplaceFuel pat rep fuel r := by
  obtain ⟨p, ps, rfl⟩ : ∃ p ps, pat = p :: ps := by
    cases pat with
    | nil => exact absurd rfl hpat
    | cons p ps => exact ⟨p, ps, rfl⟩
  have hpre : (p :: ps).isPrefixOf ((p :: ps) ++ r) = true :=
    List.isPrefixOf_iff_prefix.mpr (List.prefix_append _ _)
  have hcond : ((p :: ps) ≠ [] ∧ (p :: ps).isPrefixOf (p :: (ps ++ r))) := by
    exact ⟨hpat, hpre⟩
  show pyReplaceFuel (p :: ps) rep (fuel + 1) (p :: (ps ++ r)) = _
  rw [pyReplaceFuel, if_pos hcond]
  have hdrop : (p :: (ps ++ r)).drop (p :: ps).length = r := List.drop_left (p :: ps) r
  rw [hdrop]

/-- Characterisation of `gcs_uri.replace("gs://", "")` on a URI of the
form `gs://` + remainder, when the remainder contains no further
occurrence of the scheme-prefix character sequence: exactly the leading
prefix is removed. -/
lemma pyReplace_gs (uri : String) (r : List Char)
    (huri : uri.data = "gs://".data ++ r)
    (hocc : ¬ ("gs://".data <:+: r)) :
    (pyReplace uri "gs://" "").data = r := by
  have hpat : "gs://".data ≠ [] := by decide
  have hlen : uri.data.length = ("gs://".data.length + r.length - 1) + 1 := by
    rw [huri, List.length_append]
    have : 0 < "gs://".data.length := by decide
    omega
  show (pyReplaceFuel "gs://".data "".data uri.data.length uri.data) = r
  rw [huri] at hlen ⊢
  have h5 : "gs://".data.length + r.length - 1 = 4 + r.length := by
    have : "gs://".data.length = 5 := by decide
    omega
  rw [hlen, h5, pyReplaceFuel_prefix _ _ hpat]
  show pyReplaceFuel "gs://".data [] (4 + r.length) r = r
  exact pyReplaceFuel_of_not_infix _ _ hpat _ _ hocc

/-- A list with no slash has no first-slash split. -/
lemma splitFirstSlash_none : ∀ (l : List Char), ('/' : Char) ∉ l →
    splitFirstSlash l = none := by
  intro l
  induction l with
  | nil => intro _; rfl
  | cons c rest ih =>
    intro h
    have hc : ¬ (c = '/') := fun hc => h (hc ▸ List.mem_cons_self c rest)
    have hr : ('/' : Char) ∉ rest := fun hr => h (List.mem_cons_of_mem c hr)
    rw [splitFirstSlash, if_neg hc, ih hr]

/-- Splitting at the first slash of `a ++ '/' :: b` with no slash in `a`
yields `(a, b)`. -/
lemma splitFirstSlash_append : ∀ (a b : List Char), ('/' : Char) ∉ a →
    splitFirstSlash (a ++ '/' :: b) = some (a, b) := by
  intro a b
  induction a with
  | nil => intro _; rfl
  | cons c rest ih =>
    intro h
    have hc : ¬ (c = '/') := fun hc => h (hc ▸ List.mem_cons_self c rest)
    have hr : ('/' : Char) ∉ rest := fun hr => h (List.mem_cons_of_mem c hr)
    show splitFirstSlash (c :: (rest ++ '/' :: b)) = _
    rw [splitFirstSlash, if_neg hc, ih hr]

/-- Joining a list of empty strings yields the empty string. -/
lemma join_all_empty (l : List String) (h : ∀ s ∈ l, s = "") :
    String.join l = "" := by
  rw [String.join_eq]
  have hmap : l.map String.data = l.map (fun _ => ([] : List Char)) :=
    List.map_congr_left fun s hs => by rw [h s hs]
  rw [hmap]
  have hflat : (l.map (fun _ => ([] : List Char))).flatten = [] := by
    induction l with
    | nil => rfl
    | cons s t ih => simpa using ih
  rw [hflat]

/-- A PDF all of whose pages extract to the empty string concatenates to
the empty string. -/
lemma pdf_join_pages_empty (doc : PdfDoc)
    (h : ∀ p ∈ doc.pages, p.extract_text.getD "" = "") :
    pdf_join_pages doc = "" := by
  refine join_all_empty _ fun s hs => ?_
  obtain ⟨p, hp, rfl⟩ := List.mem_map.mp hs
  exact h p hp

/-- Truthiness of a present string field is its non-emptiness. -/
lemma pyTruthy_some (t : String) : pyTruthy (some t) = true ↔ t ≠ "" := by
  simp [pyTruthy]

/-- A direct-text payload with non-empty text passes full validation. -/
lemma validate_direct_text (t : String) (h : t ≠ "") :
    validate_TextSourceModel ⟨some t, none, none⟩ =
      Except.ok ⟨some t, none, none⟩ := by
  have ht : pyTruthy (some t) = true := (pyTruthy_some t).mpr h
  have hn : pyTruthy (none : Option String) = false := rfl
  have hlen0 : ¬ (t.length = 0) := fun h0 => h (String.ext (List.length_eq_zero.mp h0))
  simp [validate_TextSourceModel, check_exclusive_source, validate_fields,
    ht, hn, hlen0]

/-! ### Claim C1 -/

/-- C1, counterexample: a payload whose `text` field is the empty string
while `web_url` is the single field populated with a non-empty string
satisfies the claim's acceptance condition (exactly one non-empty field,
no `gcs_pdf_uri`), yet validation rejects it: the empty-string `text`
fails the `min_length=1` field constraint.  So "accepts if and only if"
is false as stated. -/
theorem C1_counterexample :
    spec_accepts emptyTextPayload = true ∧
      validate_TextSourceModel emptyTextPayload =
        Except.error "String should have at least 1 character" :=
  ⟨rfl, rfl⟩

/-- The exclusive-source validator only ever passes its input through
unchanged. -/
lemma check_ok_elim (values v : TextSourceModel)
    (h : check_exclusive_source values = Except.ok v) : v = values := by
  unfold check_exclusive_source at h
  by_cases h1 :
      ([values.text, values.web_url, values.gcs_pdf_uri].filter pyTruthy).length = 1
  · rw [if_neg (not_not_intro h1)] at h
    by_cases h2 : (pyTruthy values.gcs_pdf_uri &&
        !pyStartsWith (values.gcs_pdf_uri.getD "") "gs://") = true
    · rw [if_pos h2] at h
      exact absurd h (by simp)
    · rw [if_neg h2] at h
      injection h with h
      exact h.symm
  · rw [if_pos h1] at h
    exact absurd h (by simp)

/-- Acceptance condition of the exclusive-source validator. -/
lemma check_ok_iff (values : TextSourceModel) :
    check_exclusive_source values = Except.ok values ↔
      (([values.text, values.web_url, values.gcs_pdf_uri].filter pyTruthy).length = 1 ∧
        (pyTruthy values.gcs_pdf_uri &&
          !pyStartsWith (values.gcs_pdf_uri.getD "") "gs://") = false) := by
  unfold check_exclusive_source
  by_cases h1 :
      ([values.text, values.web_url, values.gcs_pdf_uri].filter pyTruthy).length = 1
  · rw [if_neg (not_not_intro h1)]
    by_cases h2 : (pyTruthy values.gcs_pdf_uri &&
        !pyStartsWith (values.gcs_pdf_uri.getD "") "gs://") = true
    · rw [if_pos h2]
      simp [h1, h2]
    · rw [if_neg h2]
      rw [Bool.not_eq_true] at h2
      simp [h1, h2]
  · rw [if_pos h1]
    simp [h1]

/-- Acceptance condition of the pydantic field-constraint stage. -/
lemma validate_fields_ok_iff (values : TextSourceModel) :
    validate_fields values = Except.ok values ↔ values.text ≠ some "" := by
  unfold validate_fields
  cases ht : values.text with
  | none =>
    show Except.ok values = Except.ok values ↔ (none : Option String) ≠ some ""
    simp
  | some t =>
    show (if t.length < 1 then Except.error "String should have at least 1 character"
        else Except.ok values) = Except.ok values ↔ some t ≠ some ""
    by_cases hl : t.length < 1
    · rw [if_pos hl]
      have hl0 : t.length = 0 := by omega
      have hdl : t.data.length = 0 := hl0
      have ht0 : t = "" := String.ext (List.length_eq_zero.mp hdl)
      subst ht0
      simp
    · rw [if_neg hl]
      have htne : t ≠ "" := by
        intro he
        subst he
        exact hl (by decide)
      simp [htne]

/-- Acceptance condition of the full payload validation. -/
lemma validate_ok_iff (values : TextSourceModel) :
    validate_TextSourceModel values = Except.ok values ↔
      (check_exclusive_source values = Except.ok values ∧ values.text ≠ some "") := by
  unfold validate_TextSourceModel
  cases hc : check_exclusive_source values with
  | error e =>
    show Except.error e = Except.ok values ↔
      (Except.error e = Except.ok values ∧ values.text ≠ some "")
    simp
  | ok v =>
    have hv : v = values := check_ok_elim values v hc
    subst hv
    show validate_fields v = Except.ok v ↔
      (Except.ok v = Except.ok v ∧ v.text ≠ some "")
    rw [validate_fields_ok_iff]
    simp

/-- C1, amended: the input-shape validator accepts a Source Specification
if and only if exactly one of the three fields is populated with a
non-empty string, a populated `gcs_pdf_uri` starts with `"gs://"`, and
additionally the `text` field, when present, is not the empty string
(pydantic's `min_length=1` field constraint); every violating input is
rejected with a validation error before any extraction or network/storage
I/O is attempted (the pipeline stops with the validation message and an
empty I/O trace). -/
theorem C1_validator_amended (values : TextSourceModel) :
    ((validate_TextSourceModel values = Except.ok values) ↔
      (spec_accepts values = true ∧ values.text ≠ some "")) ∧
    (∀ (web : WebEnv) (gcs : GcsEnv) (lib : TextstatLib) (e : String),
      validate_TextSourceModel values = Except.error e →
      run_pipeline web gcs lib values = (Except.error e, [])) := by
  constructor
  · rw [validate_ok_iff, check_ok_iff]
    unfold spec_accepts
    rw [List.countP_eq_length_filter]
    constructor
    · rintro ⟨⟨hlen, hbool⟩, htext⟩
      refine ⟨?_, htext⟩
      rw [hlen]
      revert hbool
      cases pyTruthy values.gcs_pdf_uri <;>
        cases pyStartsWith (values.gcs_pdf_uri.getD "") "gs://" <;> simp
    · rintro ⟨hspec, htext⟩
      refine ⟨⟨?_, ?_⟩, htext⟩
      · revert hspec
        cases hq : ([values.text, values.web_url, values.gcs_pdf_uri].filter pyTruthy).length <;>
          simp_all
      · revert hspec
        cases pyTruthy values.gcs_pdf_uri <;>
          cases pyStartsWith (values.gcs_pdf_uri.getD "") "gs://" <;> simp
  · intro web gcs lib e he
    unfold run_pipeline
    rw [he]

/-- C1, witness: a payload with two non-empty fields is rejected by the
pipeline with the exclusive-source validation error and an empty I/O
trace. -/
theorem C1_witness :
    run_pipeline webEnvFixture gcsEnvFixture libFixture
        ⟨some "hi", some "http://x", none⟩ =
      (Except.error "Exactly one of text, web_url, or gcs_pdf_uri must be provided.", []) :=
  (C1_validator_amended ⟨some "hi", some "http://x", none⟩).2
    webEnvFixture gcsEnvFixture libFixture _ rfl

/-! ### Claim C2 -/

/-- C2: for every text with positive word count (and a non-empty trimmed
form, which any text with a lexical word has), if the scoring library
raises any exception while computing the Spache score, the Metrics Engine
still returns the complete score bundle: the Spache field is absent and
every other field is computed; the failure is never surfaced as a request
error. -/
theorem C2_spache_failure_swallowed (lib : TextstatLib) (text src_desc e : String)
    (htrim : pyStrip text ≠ "") (hwc : lib.lexicon_count text ≠ 0)
    (hsp : lib.spache text = Except.error e) :
    calculate_readability_metrics_logic lib text src_desc = Except.ok {
      flesch_reading_ease := some (lib.flesch_reading_ease text)
      flesch_kincaid_grade := some (lib.flesch_kincaid_grade text)
      gunning_fog := some (lib.gunning_fog text)
      smog_index := some (lib.smog_index text)
      automated_readability_index := some (lib.automated_readability_index text)
      coleman_liau_index := some (lib.coleman_liau_index text)
      linsear_write_formula := some (lib.linsear_write_formula text)
      dale_chall_readability_score := some (lib.dale_chall_readability_score text)
      text_standard := some (toString (lib.text_standard text))
      spache := none
      syllable_count := lib.syllable_count text
      word_count := lib.lexicon_count text
      sentence_count := lib.sentence_count text } := by
  unfold calculate_readability_metrics_logic
  rw [if_neg htrim]
  simp only [if_neg hwc, if_pos (Nat.pos_of_ne_zero hwc), hsp]

/-- C2, witness: with a stub library whose Spache computation raises, a
short text still yields the full bundle with `spache := none`. -/
theorem C2_witness :
    calculate_readability_metrics_logic libErrFixture "The cat sat." "direct text" =
      Except.ok {
        flesch_reading_ease := some (libErrFixture.flesch_reading_ease "The cat sat.")
        flesch_kincaid_grade := some (libErrFixture.flesch_kincaid_grade "The cat sat.")
        gunning_fog := some (libErrFixture.gunning_fog "The cat sat.")
        smog_index := some (libErrFixture.smog_index "The cat sat.")
        automated_readability_index :=
          some (libErrFixture.automated_readability_index "The cat sat.")
        coleman_liau_index := some (libErrFixture.coleman_liau_index "The cat sat.")
        linsear_write_formula := some (libErrFixture.linsear_write_formula "The cat sat.")
        dale_chall_readability_score :=
          some (libErrFixture.dale_chall_readability_score "The cat sat.")
        text_standard := some (toString (libErrFixture.text_standard "The cat sat."))
        spache := none
        syllable_count := libErrFixture.syllable_count "The cat sat."
        word_count := libErrFixture.lexicon_count "The cat sat."
        sentence_count := libErrFixture.sentence_count "The cat sat." } :=
  C2_spache_failure_swallowed libErrFixture "The cat sat." "direct text"
    "100 words required." (by decide) (by decide) rfl

/-! ### Claim C3 -/

/-- C3: the Metrics Engine rejects a text whose trimmed form is empty with
`MetricsError("Empty text.")`, rejects a text with non-empty trimmed form
but zero lexicon word count with `MetricsError("Zero words.")`, returns a
score bundle in every other case, and no error message other than these
two can come out of the scoring stage. -/
theorem C3_hard_rejections (lib : TextstatLib) (text src_desc : String) :
    (pyStrip text = "" →
      calculate_readability_metrics_logic lib text src_desc =
        Except.error "Empty text.") ∧
    (pyStrip text ≠ "" → lib.lexicon_count text = 0 →
      calculate_readability_metrics_logic lib text src_desc =
        Except.error "Zero words.") ∧
    (pyStrip text ≠ "" → lib.lexicon_count text ≠ 0 →
      ∃ b, calculate_readability_metrics_logic lib text src_desc = Except.ok b) ∧
    (∀ m, calculate_readability_metrics_logic lib text src_desc = Except.error m →
      m = "Empty text." ∨ m = "Zero words.") := by
  refine ⟨?_, ?_, ?_, ?_⟩
  · intro h1
    unfold calculate_readability_metrics_logic
    rw [if_pos h1]
  · intro h1 h2
    unfold calculate_readability_metrics_logic
    rw [if_neg h1]
    simp only [if_pos h2]
  · intro h1 h2
    cases hres : calculate_readability_metrics_logic lib text src_desc with
    | ok b => exact ⟨b, rfl⟩
    | error m =>
      exfalso
      unfold calculate_readability_metrics_logic at hres
      rw [if_neg h1] at hres
      simp only [if_neg h2] at hres
      exact absurd hres (by simp)
  · intro m hm
    by_cases h1 : pyStrip text = ""
    · unfold calculate_readability_metrics_logic at hm
      rw [if_pos h1] at hm
      left
      injection hm with hm
      exact hm.symm
    · by_cases h2 : lib.lexicon_count text = 0
      · unfold calculate_readability_metrics_logic at hm
        rw [if_neg h1] at hm
        simp only [if_pos h2] at hm
        right
        injection hm with hm
        exact hm.symm
      · unfold calculate_readability_metrics_logic at hm
        rw [if_neg h1] at hm
        simp only [if_neg h2] at hm
        exact absurd hm (by simp)

/-- C3, witness: the three regimes at concrete inputs — whitespace text is
rejected as empty, a library counting zero words rejects as zero words,
and a normal text scores. -/
theorem C3_witness :
    calculate_readability_metrics_logic libFixture "   " "direct text" =
        Except.error "Empty text." ∧
    calculate_readability_metrics_logic libZeroFixture "abc" "direct text" =
        Except.error "Zero words." ∧
    ∃ b, calculate_readability_metrics_logic libFixture "abc" "direct text" =
        Except.ok b :=
  ⟨(C3_hard_rejections libFixture "   " "direct text").1 (by decide),
   (C3_hard_rejections libZeroFixture "abc" "direct text").2.1 (by decide) rfl,
   (C3_hard_rejections libFixture "abc" "direct text").2.2.1 (by decide) (by decide)⟩

/-! ### Claim C9 -/

/-- C9: every score bundle the Metrics Engine returns has `word_count`
equal to the library's lexicon count of the input text, and that count is
at least 1 — the documented range "integer ≥ 0" is never realised at 0 on
a successful request. -/
theorem C9_word_count_positive (lib : TextstatLib) (text src_desc : String)
    (b : ReadabilityScoresModel)
    (h : calculate_readability_metrics_logic lib text src_desc = Except.ok b) :
    b.word_count = lib.lexicon_count text ∧ 1 ≤ b.word_count := by
  unfold calculate_readability_metrics_logic at h
  by_cases h1 : pyStrip text = ""
  · rw [if_pos h1] at h
    exact absurd h (by simp)
  · rw [if_neg h1] at h
    by_cases h2 : lib.lexicon_count text = 0
    · simp only [if_pos h2] at h
      exact absurd h (by simp)
    · simp only [if_neg h2] at h
      injection h with h
      rw [← h]
      exact ⟨rfl, Nat.one_le_iff_ne_zero.mpr h2⟩

/-- C9, witness: a concrete successful request has `word_count` equal to
the lexicon count and at least 1. -/
theorem C9_witness :
    ∃ b, calculate_readability_metrics_logic libFixture "abc" "direct text" =
        Except.ok b ∧
      b.word_count = libFixture.lexicon_count "abc" ∧ 1 ≤ b.word_count := by
  refine ⟨_, rfl, ?_⟩
  exact C9_word_count_positive libFixture "abc" "direct text" _ rfl

/-! ### Claim C4 -/

/-- C4: a PDF source — web-fetched or storage-fetched — whose every page
yields an empty extracted string fails with the "no text in PDF"
`ResolutionError` of its branch, and never yields resolved text or a
score bundle; pages yielding no extractable text (`None`) contribute an
empty string rather than a per-page failure. -/
theorem C4_empty_pdf_fails :
    (∀ (web : WebEnv) (url : String) (resp : HttpResponse) (doc : PdfDoc),
      web.fetch url = Except.ok resp →
      is_pdf_response url resp = true →
      resp.pdf_parse = Except.ok doc →
      (∀ p ∈ doc.pages, p.extract_text.getD "" = "") →
      resolve_web web url =
        (Except.error ("Web URL error (" ++ url ++ "): " ++ "No text in web PDF."),
          [IOEvent.webFetch url])) ∧
    (∀ (gcs : GcsEnv) (uri bucket blob : String) (doc : PdfDoc),
      gcs_split_uri uri = some (bucket, blob) →
      gcs.fetch_pdf bucket blob = Except.ok doc →
      (∀ p ∈ doc.pages, p.extract_text.getD "" = "") →
      extract_text_from_gcs_pdf gcs uri =
        (Except.error ("GCS PDF error (" ++ uri ++ "): " ++ "No text in PDF."),
          [IOEvent.gcsDownload bucket blob])) := by
  have hstrip : pyStrip "" = "" := rfl
  constructor
  · intro web url resp doc hfetch hpdf hparse hpages
    have hjoin : pdf_join_pages doc = "" := pdf_join_pages_empty doc hpages
    have hbody : web_try_body web url = Except.error "No text in web PDF." := by
      unfold web_try_body
      rw [hfetch]
      simp [resolve_web_inner, hpdf, hparse, hjoin, hstrip]
    unfold resolve_web
    rw [hbody]
    rfl
  · intro gcs uri bucket blob doc hsplit hfetch hpages
    have hjoin : pdf_join_pages doc = "" := pdf_join_pages_empty doc hpages
    have hbody : extract_gcs_inner gcs uri =
        (Except.error "No text in PDF.", [IOEvent.gcsDownload bucket blob]) := by
      unfold extract_gcs_inner
      rw [hsplit]
      simp [hfetch, hjoin, hstrip]
    unfold extract_text_from_gcs_pdf
    rw [hbody]
    rfl

/-- C4, witness: both branches at a concrete two-page PDF whose pages
extract to `None` and `""`. -/
theorem C4_witness :
    resolve_web webEnvPdfEmpty "http://example.com/doc" =
      (Except.error ("Web URL error (" ++ "http://example.com/doc" ++ "): " ++
        "No text in web PDF."), [IOEvent.webFetch "http://example.com/doc"]) ∧
    extract_text_from_gcs_pdf gcsEnvPdfEmpty "gs://b/f.pdf" =
      (Except.error ("GCS PDF error (" ++ "gs://b/f.pdf" ++ "): " ++
        "No text in PDF."), [IOEvent.gcsDownload "b" "f.pdf"]) :=
  ⟨C4_empty_pdf_fails.1 webEnvPdfEmpty "http://example.com/doc" _ emptyPagesDoc
      rfl rfl rfl (by decide),
   C4_empty_pdf_fails.2 gcsEnvPdfEmpty "gs://b/f.pdf" "b" "f.pdf" emptyPagesDoc
      rfl rfl (by decide)⟩

/-! ### Claim C5 -/

/-- C5, counterexample: on the accepted URI
`gs://bucket/papers/gs://nested.pdf` the split yields the object path
`"papers/nested.pdf"` — the embedded `gs://` sequence is deleted, because
`replace("gs://", "")` removes every occurrence — and not the claimed
unchanged path `"papers/gs://nested.pdf"`. -/
theorem C5_counterexample :
    gcs_split_uri "gs://bucket/papers/gs://nested.pdf" =
        some ("bucket", "papers/nested.pdf") ∧
      gcs_split_uri "gs://bucket/papers/gs://nested.pdf" ≠
        some ("bucket", "papers/gs://nested.pdf") :=
  ⟨rfl, by decide⟩

/-- C5, amended: the Source Resolver computes bucket and object path by
removing every occurrence of the scheme-prefix sequence `gs://` (not only
the leading prefix) and splitting on the first path separator; hence for
every accepted URI whose remainder after the prefix contains no further
occurrence of `gs://`, the bucket is the segment between the prefix and
the first separator, and the object path is everything after that
separator, unchanged. -/
theorem C5_split_amended (uri : String) (bucket rest : List Char)
    (huri : uri.data = "gs://".data ++ (bucket ++ '/' :: rest))
    (hb : ('/' : Char) ∉ bucket)
    (hocc : ¬ ("gs://".data <:+: (bucket ++ '/' :: rest))) :
    gcs_split_uri uri = some (String.mk bucket, String.mk rest) := by
  unfold gcs_split_uri
  rw [pyReplace_gs uri _ huri hocc, splitFirstSlash_append bucket rest hb]

/-- C5, witness: the well-formed URI `gs://mock-bucket/file.pdf` splits
into bucket `mock-bucket` and object path `file.pdf`. -/
theorem C5_witness :
    gcs_split_uri "gs://mock-bucket/file.pdf" = some ("mock-bucket", "file.pdf") :=
  C5_split_amended "gs://mock-bucket/file.pdf" "mock-bucket".data "file.pdf".data
    (by decide) (by decide) (by decide)

/-! ### Claim C7 -/

/-- C7: every error the web branch produces has the form
`"Web URL error (<url>): <inner>"`, and every error the storage branch
produces has the form `"GCS PDF error (<uri>): <inner>"` — all exceptions
during fetch or parse are wrapped into a single `ResolutionError`
embedding the offending URL/URI behind the branch's category prefix, so
callers never observe a library-specific exception. -/
theorem C7_errors_wrapped :
    (∀ (web : WebEnv) (url e : String) (evs : List IOEvent),
      resolve_web web url = (Except.error e, evs) →
      ∃ inner, e = "Web URL error (" ++ url ++ "): " ++ inner) ∧
    (∀ (gcs : GcsEnv) (uri e : String) (evs : List IOEvent),
      extract_text_from_gcs_pdf gcs uri = (Except.error e, evs) →
      ∃ inner, e = "GCS PDF error (" ++ uri ++ "): " ++ inner) := by
  constructor
  · intro web url e evs h
    unfold resolve_web at h
    cases hbody : web_try_body web url with
    | error e2 =>
      rw [hbody] at h
      replace h : ((Except.error ("Web URL error (" ++ url ++ "): " ++ e2) :
            Except String (String × String)), [IOEvent.webFetch url]) =
          (Except.error e, evs) := h
      simp only [Prod.mk.injEq] at h
      exact ⟨e2, (Except.error.inj h.1).symm⟩
    | ok x =>
      rw [hbody] at h
      replace h : ((Except.ok x : Except String (String × String)),
          [IOEvent.webFetch url]) = (Except.error e, evs) := h
      simp at h
  · intro gcs uri e evs h
    unfold extract_text_from_gcs_pdf at h
    cases hres : extract_gcs_inner gcs uri with
    | mk r evs2 =>
      rw [hres] at h
      cases r with
      | error e2 =>
        replace h : ((Except.error ("GCS PDF error (" ++ uri ++ "): " ++ e2) :
              Except String String), evs2) = (Except.error e, evs) := h
        simp only [Prod.mk.injEq] at h
        exact ⟨e2, (Except.error.inj h.1).symm⟩
      | ok t =>
        replace h : ((Except.ok t : Except String String), evs2) =
            (Except.error e, evs) := h
        simp at h

/-- C7, witness: concrete failing fetches on both branches produce the
wrapped messages. -/
theorem C7_witness :
    (∃ inner, "Web URL error (http://x): connection refused" =
      "Web URL error (" ++ "http://x" ++ "): " ++ inner) ∧
    (∃ inner, "GCS PDF error (gs://b/f.pdf): 404 blob not found" =
      "GCS PDF error (" ++ "gs://b/f.pdf" ++ "): " ++ inner) :=
  ⟨C7_errors_wrapped.1 webEnvFixture "http://x" _ _ rfl,
   C7_errors_wrapped.2 gcsEnvFixture "gs://b/f.pdf" _ _ rfl⟩

/-! ### Claim C8 -/

/-- C8: on a direct-text input the pipeline is deterministic — two runs
are equal (same provenance `"direct text"`, same resolved text, equal
score bundles), the resolved text is the input unchanged with no I/O
attempted, and the run equals scoring the input directly. -/
theorem C8_direct_text_deterministic (web : WebEnv) (gcs : GcsEnv)
    (lib : TextstatLib) (t : String) (h : t ≠ "") :
    run_pipeline web gcs lib ⟨some t, none, none⟩ =
      run_pipeline web gcs lib ⟨some t, none, none⟩ ∧
    get_processed_text web gcs ⟨some t, none, none⟩ =
      (Except.ok (t, "direct text"), []) ∧
    run_pipeline web gcs lib ⟨some t, none, none⟩ =
      (calculate_readability_metrics_logic lib t "direct text", []) := by
  have ht : pyTruthy (some t) = true := (pyTruthy_some t).mpr h
  have hget : get_processed_text web gcs ⟨some t, none, none⟩ =
      (Except.ok (t, "direct text"), []) := by
    unfold get_processed_text
    simp [ht]
  refine ⟨rfl, hget, ?_⟩
  unfold run_pipeline
  rw [validate_direct_text t h]
  simp [hget]

/-- C8, witness: the concrete direct text `"hello"` resolves to itself
with provenance `"direct text"`. -/
theorem C8_witness :
    get_processed_text webEnvFixture gcsEnvFixture ⟨some "hello", none, none⟩ =
      (Except.ok ("hello", "direct text"), []) :=
  (C8_direct_text_deterministic webEnvFixture gcsEnvFixture libFixture "hello"
    (by decide)).2.1

/-! ### Claim C10 -/

/-- C10: a `gcs_pdf_uri` that starts with `gs://` but has no path
separator after the prefix passes shape validation; resolution then fails
— for every storage environment — with a `ResolutionError` prefixed
`"GCS PDF error"` embedding the URI, raised by the bucket/object split
before any storage download or PDF parsing (the I/O trace is empty). -/
theorem C10_bucket_only_uri (uri : String) (r : List Char)
    (huri : uri.data = "gs://".data ++ r) (hnos : ('/' : Char) ∉ r) :
    validate_TextSourceModel ⟨none, none, some uri⟩ =
      Except.ok ⟨none, none, some uri⟩ ∧
    (∀ gcs : GcsEnv,
      extract_text_from_gcs_pdf gcs uri =
        (Except.error ("GCS PDF error (" ++ uri ++ "): " ++
          "not enough values to unpack (expected 2, got 1)"), [])) ∧
    (∀ (web : WebEnv) (gcs : GcsEnv) (lib : TextstatLib),
      run_pipeline web gcs lib ⟨none, none, some uri⟩ =
        (Except.error ("GCS PDF error (" ++ uri ++ "): " ++
          "not enough values to unpack (expected 2, got 1)"), [])) := by
  have hne : uri ≠ "" := by
    intro he
    rw [he] at huri
    exact absurd huri (by simp)
  have htr : pyTruthy (some uri) = true := (pyTruthy_some uri).mpr hne
  have hstart : pyStartsWith uri "gs://" = true := by
    unfold pyStartsWith
    rw [huri]
    exact List.isPrefixOf_iff_prefix.mpr (List.prefix_append _ _)
  have hsplit : gcs_split_uri uri = none := by
    unfold gcs_split_uri
    have hocc : ¬ ("gs://".data <:+: r) := by
      intro hin
      exact hnos (hin.subset (by decide : ('/' : Char) ∈ "gs://".data))
    rw [pyReplace_gs uri r huri hocc, splitFirstSlash_none r hnos]
  have hval : validate_TextSourceModel ⟨none, none, some uri⟩ =
      Except.ok ⟨none, none, some uri⟩ := by
    rw [validate_ok_iff]
    refine ⟨(check_ok_iff _).mpr ⟨?_, ?_⟩, by simp⟩
    · have hpn : pyTruthy (none : Option String) = false := rfl
      simp [htr, hpn]
    · simp [htr, hstart]
  have hex : ∀ gcs : GcsEnv,
      extract_text_from_gcs_pdf gcs uri =
        (Except.error ("GCS PDF error (" ++ uri ++ "): " ++
          "not enough values to unpack (expected 2, got 1)"), []) := by
    intro gcs
    have hbody : extract_gcs_inner gcs uri =
        (Except.error "not enough values to unpack (expected 2, got 1)", []) := by
      unfold extract_gcs_inner
      rw [hsplit]
    unfold extract_text_from_gcs_pdf
    rw [hbody]
    rfl
  refine ⟨hval, hex, ?_⟩
  intro web gcs lib
  have hget : get_processed_text web gcs ⟨none, none, some uri⟩ =
      (Except.error ("GCS PDF error (" ++ uri ++ "): " ++
        "not enough values to unpack (expected 2, got 1)"), []) := by
    have hpn : pyTruthy (none : Option String) = false := rfl
    unfold get_processed_text
    simp [htr, hpn, hex gcs]
  unfold run_pipeline
  rw [hval]
  simp [hget]

/-- C10, witness: the concrete URI `gs://bucket` is accepted by validation
and fails resolution with the wrapped unpack error and an empty I/O
trace. -/
theorem C10_witness :
    run_pipeline webEnvFixture gcsEnvFixture libFixture ⟨none, none, some "gs://bucket"⟩ =
      (Except.error ("GCS PDF error (" ++ "gs://bucket" ++ "): " ++
        "not enough values to unpack (expected 2, got 1)"), []) :=
  (C10_bucket_only_uri "gs://bucket" "bucket".data (by decide) (by decide)).2.2
    webEnvFixture gcsEnvFixture libFixture

/-! ### Claim C6 -/

/-- The extracted HTML text is the `get_text` of the first of the first
`<article>` element, the first `<main>` element, and the document
`<body>` that exists, and empty when none exists: every bs4 `Tag` is
truthy, so Python's `or` chain picks the first non-`None` find result. -/
lemma html_extract_eq (doc : HtmlDoc) :
    html_branch_text doc =
      (match first_present_tag doc with
       | some t => get_text_space_strip t
       | none => "") := by
  unfold html_branch_text first_present_tag pyOrTag
  cases ha : doc.article with
  | some ta => simp [tagTruthy]
  | none =>
    cases hm : doc.mainElem with
    | some tm => simp [tagTruthy]
    | none =>
      cases hb : doc.body with
      | some tb => simp [tagTruthy]
      | none => simp [tagTruthy]

/-- C6: for every web URL response not recognized as a PDF, the resolver
extracts text — visible text nodes each stripped, joined with a
single-space separator — from the content of the first `<article>`
element if one exists, else the first `<main>` element, else the document
`<body>`; if no such element exists or the trimmed extraction is empty,
resolution fails with the "no text from URL" `ResolutionError`. -/
theorem C6_html_target (web : WebEnv) (url : String) (resp : HttpResponse)
    (hfetch : web.fetch url = Except.ok resp)
    (hnotpdf : is_pdf_response url resp = false) :
    resolve_web web url =
      ((match first_present_tag resp.html_parse with
        | some t =>
          if pyStrip (get_text_space_strip t) = "" then
            Except.error ("Web URL error (" ++ url ++ "): " ++ "No text from URL.")
          else Except.ok (get_text_space_strip t, "URL: " ++ url)
        | none =>
          Except.error ("Web URL error (" ++ url ++ "): " ++ "No text from URL.")),
        [IOEvent.webFetch url]) := by
  have hcond : ¬ (is_pdf_response url resp = true) := by simp [hnotpdf]
  have hbody : web_try_body web url =
      (match first_present_tag resp.html_parse with
       | some t =>
         if pyStrip (get_text_space_strip t) = "" then
           Except.error "No text from URL."
         else Except.ok (get_text_space_strip t, "URL: " ++ url)
       | none => Except.error "No text from URL.") := by
    unfold web_try_body
    rw [hfetch]
    show resolve_web_inner url resp = _
    unfold resolve_web_inner
    rw [if_neg hcond, html_extract_eq]
    cases hft : first_present_tag resp.html_parse with
    | none => rfl
    | some t => rfl
  unfold resolve_web
  rw [hbody]
  cases hft : first_present_tag resp.html_parse with
  | none => rfl
  | some t =>
    show wrap_web url
        (if pyStrip (get_text_space_strip t) = "" then Except.error "No text from URL."
         else Except.ok (get_text_space_strip t, "URL: " ++ url)) =
      ((if pyStrip (get_text_space_strip t) = "" then
          Except.error ("Web URL error (" ++ url ++ "): " ++ "No text from URL.")
        else Except.ok (get_text_space_strip t, "URL: " ++ url)),
        [IOEvent.webFetch url])
    by_cases hs : pyStrip (get_text_space_strip t) = ""
    · simp only [if_pos hs]
      rfl
    · simp only [if_neg hs]
      rfl

/-- C6, witness: a page whose only element is a contentful `<body>`
resolves to the space-joined stripped text nodes of that body; and a page
whose `<article>` exists but contains no text fails with the wrapped
"no text from URL" error even though its `<main>` has text, since the
existing `<article>` is selected. -/
theorem C6_witness :
    resolve_web webEnvBodyOnly "http://example.com/b" =
      (Except.ok ("Some body text", "URL: http://example.com/b"),
        [IOEvent.webFetch "http://example.com/b"]) ∧
    resolve_web webEnvEmptyArticle "http://example.com/page" =
      (Except.error ("Web URL error (" ++ "http://example.com/page" ++ "): " ++
        "No text from URL."), [IOEvent.webFetch "http://example.com/page"]) := by
  constructor
  · have h := C6_html_target webEnvBodyOnly "http://example.com/b" _ rfl rfl
    rw [h]
    rfl
  · have h := C6_html_target webEnvEmptyArticle "http://example.com/page" _ rfl rfl
    rw [h]
    rfl

end Docstats
